import Mathlib

/-!
# RegisterScreen: validation and submission of the registration form

A shallow embedding of `frontend/src/components/auth/RegisterScreen.jsx`.

* JavaScript strings are sequences of UTF-16 code units (`JSString`); `length`,
  `trim`, `!==` and the regular expression all work on code units.
* React state is one record `State`; an event handler is a function from the
  state at the time of the event to the state after it, together with the
  effects it issued (network request, timer, callback).
* A thrown `Error` is represented by its `message`; `try`/`catch` is `Except`.
* The outcome of the single `fetch` call and the host built-ins `JSON.parse`
  and `JSON.stringify` are inputs of the handler.
* `console.log` / `console.error` calls are diagnostic only and are omitted.
-/

namespace RegisterScreen

/-! ## Strings -/

/-- A JavaScript string, as its list of UTF-16 code units. -/
abbrev JSString := List Nat

/-- UTF-16 encoding of one Unicode scalar value. -/
def utf16 (c : Char) : List Nat :=
  if c.toNat < 65536 then [c.toNat]
  else [55296 + (c.toNat - 65536) / 1024, 56320 + (c.toNat - 65536) % 1024]

/-- The JavaScript string denoted by a source literal. -/
def lit (s : String) : JSString := (s.toList.map utf16).flatten

/-- ECMAScript `WhiteSpace` and `LineTerminator` code points: the characters
removed by `String.prototype.trim` and matched by the regular expression class
`\s` (so `\S` is the complement). -/
def isWhiteSpace (c : Nat) : Bool :=
  c == 9 || c == 10 || c == 11 || c == 12 || c == 13 || c == 32 || c == 160 ||
  c == 5760 || (8192 ≤ c && c ≤ 8202) || c == 8232 || c == 8233 || c == 8239 ||
  c == 8287 || c == 12288 || c == 65279

/-- The method `String.prototype.trimStart`. -/
def trimStart (s : JSString) : JSString := s.dropWhile isWhiteSpace

/-- The method `String.prototype.trimEnd`. -/
def trimEnd (s : JSString) : JSString := (s.reverse.dropWhile isWhiteSpace).reverse

/-- The method `String.prototype.trim`. -/
def trim (s : JSString) : JSString := trimEnd (trimStart s)

/-- JavaScript truthiness of a string: non-empty. -/
def truthyStr (s : JSString) : Bool := !s.isEmpty

/-- The expression `a || b` on strings. -/
def orStr (a b : JSString) : JSString := if truthyStr a then a else b

/-! ## Regular expressions -/

/-- Regular expressions over code units. -/
inductive RegExp where
  | empty : RegExp
  | eps : RegExp
  | cls (p : Nat → Bool) : RegExp
  | seq (a b : RegExp) : RegExp
  | alt (a b : RegExp) : RegExp
  | star (a : RegExp) : RegExp

namespace RegExp

/-- The quantifier `a+`. -/
def plus (a : RegExp) : RegExp := seq a (star a)

/-- A literal code unit. -/
def char (c : Nat) : RegExp := cls (fun x => x == c)

/-- The class `\S`. -/
def notSpace : RegExp := cls (fun x => !isWhiteSpace x)

/-- Whether the expression matches the empty string. -/
def nullable : RegExp → Bool
  | empty => false
  | eps => true
  | cls _ => false
  | seq a b => nullable a && nullable b
  | alt a b => nullable a || nullable b
  | star _ => true

/-- Brzozowski derivative with respect to one code unit. -/
def deriv : RegExp → Nat → RegExp
  | empty, _ => empty
  | eps, _ => empty
  | cls p, c => if p c then eps else empty
  | seq a b, c =>
      if nullable a then alt (seq (deriv a c) b) (deriv b c) else seq (deriv a c) b
  | alt a b, c => alt (deriv a c) (deriv b c)
  | star a, c => seq (deriv a c) (star a)

/-- Whether the expression matches the whole of `s`. -/
def fullMatch : RegExp → List Nat → Bool
  | r, [] => nullable r
  | r, c :: s => fullMatch (deriv r c) s

/-- The method `RegExp.prototype.test` for an expression without flags: is there a start
index and an end index such that the expression matches the substring between
them. -/
def test (r : RegExp) (s : JSString) : Bool :=
  s.tails.any (fun t => t.inits.any (fun x => fullMatch r x))

/-- The strings an expression denotes. -/
inductive Matches : RegExp → List Nat → Prop
  | eps : Matches eps []
  | cls {p : Nat → Bool} {c : Nat} : p c = true → Matches (cls p) [c]
  | seq {a b : RegExp} {u v : List Nat} :
      Matches a u → Matches b v → Matches (seq a b) (u ++ v)
  | altL {a b : RegExp} {u : List Nat} : Matches a u → Matches (alt a b) u
  | altR {a b : RegExp} {u : List Nat} : Matches b u → Matches (alt a b) u
  | starNil {a : RegExp} : Matches (star a) []
  | starCons {a : RegExp} {u v : List Nat} :
      Matches a u → Matches (star a) v → Matches (star a) (u ++ v)

end RegExp

/-- The pattern `/\S+@\S+\.\S+/` of `validateForm`. -/
def emailPattern : RegExp :=
  .seq (.plus .notSpace) (.seq (.char 64) (.seq (.plus .notSpace)
    (.seq (.char 46) (.plus .notSpace))))

/-! ## Component state -/

/-- The six keys of `formData` (and the `name` attributes of the six inputs). -/
inductive Field where
  | username | email | password | password2 | first_name | last_name
  deriving DecidableEq

/-- The `formData` state object. -/
structure FormData where
  username : JSString
  email : JSString
  password : JSString
  password2 : JSString
  first_name : JSString
  last_name : JSString
  deriving DecidableEq

/-- The initial (and post-success) `formData`: every field the empty string. -/
def FormData.blank : FormData :=
  { username := [], email := [], password := [], password2 := [],
    first_name := [], last_name := [] }

/-- Property read `formData[name]`. -/
def FormData.get (d : FormData) : Field → JSString
  | .username => d.username
  | .email => d.email
  | .password => d.password
  | .password2 => d.password2
  | .first_name => d.first_name
  | .last_name => d.last_name

/-- The object spread `{...prev, [name]: value}` on `formData`. -/
def FormData.set (d : FormData) (name : Field) (value : JSString) : FormData :=
  match name with
  | .username => { d with username := value }
  | .email => { d with email := value }
  | .password => { d with password := value }
  | .password2 => { d with password2 := value }
  | .first_name => { d with first_name := value }
  | .last_name => { d with last_name := value }

/-- The `validationErrors` / `errors` object: for each key either absent
(`none`, reads as `undefined`) or a string. -/
structure ValidationErrors where
  username : Option JSString := none
  email : Option JSString := none
  password : Option JSString := none
  password2 : Option JSString := none
  first_name : Option JSString := none
  last_name : Option JSString := none
  deriving DecidableEq

/-- Property read `errors[name]`. -/
def ValidationErrors.get (e : ValidationErrors) : Field → Option JSString
  | .username => e.username
  | .email => e.email
  | .password => e.password
  | .password2 => e.password2
  | .first_name => e.first_name
  | .last_name => e.last_name

/-- The property write `errors[name] = value`, also the object spread
`{...prev, [name]: value}` on `validationErrors`. -/
def ValidationErrors.set (e : ValidationErrors) (name : Field) (value : JSString) :
    ValidationErrors :=
  match name with
  | .username => { e with username := some value }
  | .email => { e with email := some value }
  | .password => { e with password := some value }
  | .password2 => { e with password2 := some value }
  | .first_name => { e with first_name := some value }
  | .last_name => { e with last_name := some value }

/-- The keys in the order `validateForm` may assign them. -/
def Field.all : List Field :=
  [.username, .email, .first_name, .last_name, .password, .password2]

/-- The call `Object.keys(errors)`: the keys that are present. -/
def ValidationErrors.keys (e : ValidationErrors) : List Field :=
  Field.all.filter (fun f => (e.get f).isSome)

/-- Truthiness of `errors[name]`: present and a non-empty string. This is the
test under which the component shows a field's error and `handleChange` clears
it. -/
def hasError (e : ValidationErrors) (name : Field) : Bool :=
  match e.get name with
  | none => false
  | some m => truthyStr m

/-- The five `useState` cells of the component. -/
structure State where
  formData : FormData
  validationErrors : ValidationErrors
  showSuccess : Bool
  loading : Bool
  error : JSString
  deriving DecidableEq

/-- The state on mount. -/
def State.initial : State :=
  { formData := FormData.blank, validationErrors := {}, showSuccess := false,
    loading := false, error := [] }

/-! ## handleChange -/

/-- The handler `handleChange`: the change event of the input called `name` carrying the
new `value`. -/
def handleChange (st : State) (name : Field) (value : JSString) : State :=
  let st := { st with formData := st.formData.set name value }
  if hasError st.validationErrors name then
    { st with validationErrors := st.validationErrors.set name [] }
  else st

/-! ## validateForm -/

/-- The function `validateForm`: the `errors` object it passes to `setValidationErrors` and
the boolean it returns. -/
def validateForm (formData : FormData) : ValidationErrors × Bool :=
  let errors : ValidationErrors := {}
  let errors :=
    if !truthyStr (trim formData.username) then
      errors.set .username (lit "El usuario es obligatorio")
    else if formData.username.length < 3 then
      errors.set .username (lit "El usuario debe tener al menos 3 caracteres")
    else errors
  let errors :=
    if !truthyStr (trim formData.email) then
      errors.set .email (lit "El email es obligatorio")
    else if !RegExp.test emailPattern formData.email then
      errors.set .email (lit "El formato del email no es válido")
    else errors
  let errors :=
    if !truthyStr (trim formData.first_name) then
      errors.set .first_name (lit "El nombre es obligatorio")
    else errors
  let errors :=
    if !truthyStr (trim formData.last_name) then
      errors.set .last_name (lit "El apellido es obligatorio")
    else errors
  let errors :=
    if !truthyStr formData.password then
      errors.set .password (lit "La contraseña es obligatoria")
    else if formData.password.length < 6 then
      errors.set .password (lit "La contraseña debe tener al menos 6 caracteres")
    else errors
  let errors :=
    if !truthyStr formData.password2 then
      errors.set .password2 (lit "Confirma tu contraseña")
    else if formData.password != formData.password2 then
      errors.set .password2 (lit "Las contraseñas no coinciden")
    else errors
  (errors, errors.keys.length == 0)

/-! ## Host values and the network -/

/-- A value produced by `JSON.parse`. Booleans, numbers and arrays are kept as
`other`, carrying the two things the handler can observe of them: their
truthiness and their string conversion. -/
inductive JSON where
  | null : JSON
  | str (s : JSString) : JSON
  | obj (props : List (JSString × JSON)) : JSON
  | other (truthy : Bool) (text : JSString) : JSON

/-- JavaScript truthiness of a parsed value. -/
def JSON.truthy : JSON → Bool
  | .null => false
  | .str s => truthyStr s
  | .obj _ => true
  | .other t _ => t

/-- String conversion of a parsed value, as `new Error(value)` performs it. -/
def JSON.toText : JSON → JSString
  | .null => lit "null"
  | .str s => s
  | .obj _ => lit "[object Object]"
  | .other _ text => text

/-- The built-ins of the JavaScript host the handler calls. `jsonParse` either
returns the parsed value or throws a `SyntaxError` with the given message. -/
structure Host where
  jsonParse : JSString → Except JSString JSON
  jsonStringify : JSON → JSString
  typeErrorMessage : JSString

/-- The property read `errorData.error`: throws a `TypeError` on `null`, gives
`undefined` (`none`) when the property is missing. -/
def getErrorProp (host : Host) : JSON → Except JSString (Option JSON)
  | .null => .error host.typeErrorMessage
  | .obj props => .ok ((props.find? (fun kv => kv.1 == lit "error")).map (fun kv => kv.2))
  | .str _ => .ok none
  | .other _ _ => .ok none

/-- Reading a response body: the text, or a rejection with an error message. -/
inductive BodyRead where
  | text (t : JSString) : BodyRead
  | failed (message : JSString) : BodyRead

/-- A `Response`: its status code and what reading its body gives. -/
structure Response where
  status : Nat
  body : BodyRead

/-- The getter `response.ok`: the status is in the range 200 to 299. -/
def Response.ok (r : Response) : Bool := 200 ≤ r.status && r.status ≤ 299

/-- The call `await response.text()`. -/
def Response.text (r : Response) : Except JSString JSString :=
  match r.body with
  | .text t => .ok t
  | .failed m => .error m

/-- The call `await response.json()`. -/
def Response.json (host : Host) (r : Response) : Except JSString JSON :=
  match r.body with
  | .text t => host.jsonParse t
  | .failed m => .error m

/-- What `await fetch(...)` does: reject with an error, or give a response. -/
inductive FetchOutcome where
  | rejected (message : JSString) : FetchOutcome
  | responded (response : Response) : FetchOutcome

/-- The effects an event handler issues besides state updates. -/
inductive Effect where
  | preventDefault : Effect
  | fetch (url method contentType : String) (requestData : FormData) : Effect
  | setTimeout (ms : Nat) : Effect
  | onSwitchToLogin (args : List JSString) : Effect
  deriving DecidableEq

/-- Whether an effect is the network call. -/
def Effect.isFetch : Effect → Bool
  | .fetch _ _ _ _ => true
  | _ => false

/-! ## handleRegister -/

/-- The generic message `'Error en el registro'`. -/
def genericError : JSString := lit "Error en el registro"

/-- The inner `try { ... } catch { ... }` of the `!response.ok` branch. -/
def throwServerError (host : Host) (errorText : JSString) : Except JSString Unit :=
  tryCatch
    (do
      let errorData ← host.jsonParse errorText
      let errorField ← getErrorProp host errorData
      match errorField with
      | some v =>
          if v.truthy then throw v.toText else throw (host.jsonStringify errorData)
      | none => throw (host.jsonStringify errorData))
    (fun _ => throw (orStr errorText genericError))

/-- The part of the outer `try` block from the `await fetch` on, up to and
including `await response.json()`: the parsed body, or the thrown error. -/
def awaitResponse (host : Host) (outcome : FetchOutcome) : Except JSString JSON := do
  let response ←
    match outcome with
    | .rejected m => throw m
    | .responded r => pure r
  if !response.ok then
    let errorText ← response.text
    throwServerError host errorText
  let data ← response.json host
  pure data

/-- The handler `handleRegister`: the submit event, when the `fetch` call it may make has
the given outcome. Returns the state after the handler has finished and the
effects it issued, in order. -/
def handleRegister (host : Host) (st : State) (outcome : FetchOutcome) :
    State × List Effect :=
  let effects := [Effect.preventDefault]
  let (errors, valid) := validateForm st.formData
  let st := { st with validationErrors := errors }
  if !valid then (st, effects)
  else
    let st := { st with loading := true }
    let st := { st with error := [] }
    let requestData : FormData :=
      { username := st.formData.username, email := st.formData.email,
        password := st.formData.password, password2 := st.formData.password2,
        first_name := st.formData.first_name, last_name := st.formData.last_name }
    let effects := effects ++
      [Effect.fetch "http://127.0.0.1:8000/api/auth/register/" "POST" "application/json"
        requestData]
    let (st, effects) :=
      match awaitResponse host outcome with
      | .ok _ =>
          let st := { st with formData := FormData.blank }
          let st := { st with error := [] }
          let st := { st with showSuccess := true }
          (st, effects ++ [Effect.setTimeout 2000])
      | .error message => ({ st with error := orStr message genericError }, effects)
    ({ st with loading := false }, effects)

/-- The callback `handleRegister` passes to `setTimeout`. -/
def successTimer (st : State) : State × List Effect :=
  ({ st with showSuccess := false }, [Effect.onSwitchToLogin []])

/-- The form is rendered, so change and submit events can occur, exactly when
`showSuccess` is false: otherwise the component returns the success panel. -/
def formRendered (st : State) : Bool := !st.showSuccess

/-- The request `handleRegister` sends for the given fields. -/
def registerRequest (d : FormData) : Effect :=
  Effect.fetch "http://127.0.0.1:8000/api/auth/register/" "POST" "application/json" d

/-! ## The blocks of validateForm

The six `if` blocks of `validateForm`, each as a function of the `errors`
object so far; `validateForm_eq` shows that `validateForm` is their sequence. -/

/-- The username block of `validateForm`, as a function of the `errors` so far. -/
def usernameBlock (d : FormData) (errors : ValidationErrors) : ValidationErrors :=
  if !truthyStr (trim d.username) then errors.set .username (lit "El usuario es obligatorio")
  else if d.username.length < 3 then
    errors.set .username (lit "El usuario debe tener al menos 3 caracteres")
  else errors

/-- The email block of `validateForm`. -/
def emailBlock (d : FormData) (errors : ValidationErrors) : ValidationErrors :=
  if !truthyStr (trim d.email) then errors.set .email (lit "El email es obligatorio")
  else if !RegExp.test emailPattern d.email then
    errors.set .email (lit "El formato del email no es válido")
  else errors

/-- The first name block of `validateForm`. -/
def firstNameBlock (d : FormData) (errors : ValidationErrors) : ValidationErrors :=
  if !truthyStr (trim d.first_name) then errors.set .first_name (lit "El nombre es obligatorio")
  else errors

/-- The last name block of `validateForm`. -/
def lastNameBlock (d : FormData) (errors : ValidationErrors) : ValidationErrors :=
  if !truthyStr (trim d.last_name) then errors.set .last_name (lit "El apellido es obligatorio")
  else errors

/-- The password block of `validateForm`. -/
def passwordBlock (d : FormData) (errors : ValidationErrors) : ValidationErrors :=
  if !truthyStr d.password then errors.set .password (lit "La contraseña es obligatoria")
  else if d.password.length < 6 then
    errors.set .password (lit "La contraseña debe tener al menos 6 caracteres")
  else errors

/-- The password confirmation block of `validateForm`. -/
def password2Block (d : FormData) (errors : ValidationErrors) : ValidationErrors :=
  if !truthyStr d.password2 then errors.set .password2 (lit "Confirma tu contraseña")
  else if d.password != d.password2 then
    errors.set .password2 (lit "Las contraseñas no coinciden")
  else errors

/-- The errors `validateForm` computes: its six blocks in sequence. -/
def allBlocks (d : FormData) : ValidationErrors :=
  password2Block d (passwordBlock d (lastNameBlock d (firstNameBlock d
    (emailBlock d (usernameBlock d {})))))

/-! ## Vocabulary of the specification -/

/-- Specification wording "empty or whitespace-only". -/
def isBlank (s : JSString) : Bool := s.all isWhiteSpace

/-- Specification wording "text": a non-empty run of non-whitespace characters. -/
def IsText (u : JSString) : Prop := u ≠ [] ∧ ∀ c ∈ u, isWhiteSpace c = false

/-- Specification wording: the value as a whole has the shape `text@text.text`. -/
def HasEmailShape (s : JSString) : Prop :=
  ∃ u v w, IsText u ∧ IsText v ∧ IsText w ∧ s = u ++ [64] ++ v ++ [46] ++ w

/-- Some substring of the value has the shape `text@text.text`. -/
def ContainsEmailShape (s : JSString) : Prop :=
  ∃ pre x post, s = pre ++ x ++ post ∧ HasEmailShape x

/-- The condition under which `validateForm` reports a required field as
missing: blank for the four trimmed fields; for `password` empty, or blank and
shorter than 6; for `password2` empty, or blank and different from `password`. -/
def requiredMissing (d : FormData) : Field → Bool
  | .username => isBlank d.username
  | .email => isBlank d.email
  | .first_name => isBlank d.first_name
  | .last_name => isBlank d.last_name
  | .password => d.password.isEmpty || (isBlank d.password && d.password.length < 6)
  | .password2 => d.password2.isEmpty || (isBlank d.password2 && d.password != d.password2)

/-- A field set that passes validation. -/
def validSample : FormData :=
  { username := lit "abc", email := lit "a@b.co", password := lit "123456",
    password2 := lit "123456", first_name := lit "Ana", last_name := lit "Paz" }

/-- The response body `{"error":"Username taken"}`. -/
def usernameTakenBody : JSString := lit "\x7b\"error\":\"Username taken\"\x7d"

/-- A host whose `JSON.parse` accepts nothing. -/
def rejectingHost : Host :=
  { jsonParse := fun _ => .error (lit "Unexpected end of JSON input"),
    jsonStringify := fun _ => lit "null",
    typeErrorMessage := lit "Cannot read properties of null" }

/-- A host whose `JSON.parse` reads every text as the empty object. -/
def acceptingHost : Host :=
  { jsonParse := fun _ => .ok (.obj []),
    jsonStringify := fun _ => lit "\x7b\x7d",
    typeErrorMessage := lit "Cannot read properties of null" }

/-! ## Lemmas on strings -/

theorem truthyStr_eq_false {s : JSString} : truthyStr s = false ↔ s = [] := by
  cases s <;> simp [truthyStr]

theorem truthyStr_eq_true {s : JSString} : truthyStr s = true ↔ s ≠ [] := by
  cases s <;> simp [truthyStr]

theorem trim_eq_nil_iff (s : JSString) :
    trim s = [] ↔ ∀ c ∈ s, isWhiteSpace c = true := by
  unfold trim trimEnd trimStart
  rw [List.reverse_eq_nil_iff, List.dropWhile_eq_nil_iff]
  constructor
  · intro h
    have h2 : List.dropWhile isWhiteSpace (List.dropWhile isWhiteSpace s) = [] := by
      rw [List.dropWhile_eq_nil_iff]
      intro x hx
      exact h x (List.mem_reverse.mpr hx)
    rw [List.dropWhile_idempotent] at h2
    exact List.dropWhile_eq_nil_iff.mp h2
  · intro h x hx
    have h2 : List.dropWhile isWhiteSpace s = [] := List.dropWhile_eq_nil_iff.mpr h
    rw [h2] at hx
    simp at hx

theorem orStr_ne_nil (a : JSString) {b : JSString} (hb : b ≠ []) : orStr a b ≠ [] := by
  unfold orStr
  split
  · next h => exact truthyStr_eq_true.mp h
  · exact hb

theorem genericError_ne_nil : genericError ≠ [] := by decide

/-! ## Correctness of the regular expression matcher -/

namespace RegExp

theorem matches_seq_iff {a b : RegExp} {s : List Nat} :
    Matches (seq a b) s ↔ ∃ u v, s = u ++ v ∧ Matches a u ∧ Matches b v := by
  constructor
  · intro h
    cases h with
    | seq ha hb => exact ⟨_, _, rfl, ha, hb⟩
  · rintro ⟨u, v, rfl, ha, hb⟩
    exact Matches.seq ha hb

theorem matches_alt_iff {a b : RegExp} {s : List Nat} :
    Matches (alt a b) s ↔ Matches a s ∨ Matches b s := by
  constructor
  · intro h
    cases h with
    | altL ha => exact Or.inl ha
    | altR hb => exact Or.inr hb
  · rintro (ha | hb)
    · exact Matches.altL ha
    · exact Matches.altR hb

theorem matches_cls_iff {p : Nat → Bool} {s : List Nat} :
    Matches (cls p) s ↔ ∃ c, s = [c] ∧ p c = true := by
  constructor
  · intro h
    cases h with
    | cls hc => exact ⟨_, rfl, hc⟩
  · rintro ⟨c, rfl, hc⟩
    exact Matches.cls hc

theorem not_matches_empty {s : List Nat} : ¬ Matches empty s := by
  intro h
  cases h

theorem matches_eps_iff {s : List Nat} : Matches eps s ↔ s = [] := by
  constructor
  · intro h
    cases h
    rfl
  · rintro rfl
    exact Matches.eps

/-- A non-empty match of `star a` starts with a non-empty match of `a`. -/
theorem matches_star_cons {a : RegExp} {c : Nat} {s : List Nat}
    (h : Matches (star a) (c :: s)) :
    ∃ u v, s = u ++ v ∧ Matches a (c :: u) ∧ Matches (star a) v := by
  generalize hr : star a = r at h
  generalize hx : c :: s = x at h
  induction h generalizing s with
  | eps => cases hr
  | cls _ => cases hr
  | seq _ _ => cases hr
  | altL _ => cases hr
  | altR _ => cases hr
  | starNil => cases hx
  | @starCons a2 u v ha hs _ ih =>
    cases hr
    cases u with
    | nil =>
      simp only [List.nil_append] at hx
      exact ih rfl hx
    | cons d u2 =>
      simp only [List.cons_append, List.cons.injEq] at hx
      obtain ⟨rfl, rfl⟩ := hx
      exact ⟨u2, v, rfl, ha, hs⟩

theorem nullable_iff (r : RegExp) : nullable r = true ↔ Matches r [] := by
  induction r with
  | empty => simp [nullable, not_matches_empty]
  | eps => simp [nullable, matches_eps_iff]
  | cls p => simp [nullable, matches_cls_iff]
  | seq a b iha ihb =>
    simp only [nullable, Bool.and_eq_true, iha, ihb, matches_seq_iff]
    constructor
    · rintro ⟨ha, hb⟩
      exact ⟨[], [], rfl, ha, hb⟩
    · rintro ⟨u, v, huv, ha, hb⟩
      have h := List.append_eq_nil.mp huv.symm
      rw [h.1] at ha
      rw [h.2] at hb
      exact ⟨ha, hb⟩
  | alt a b iha ihb => simp only [nullable, Bool.or_eq_true, iha, ihb, matches_alt_iff]
  | star a _ => simp [nullable, Matches.starNil]

theorem deriv_iff (r : RegExp) (c : Nat) (s : List Nat) :
    Matches (deriv r c) s ↔ Matches r (c :: s) := by
  induction r generalizing s with
  | empty => simp [deriv, not_matches_empty]
  | eps => simp [deriv, not_matches_empty, matches_eps_iff]
  | cls p =>
    simp only [deriv, matches_cls_iff]
    by_cases hp : p c = true
    · simp only [hp, if_true, matches_eps_iff]
      constructor
      · rintro rfl
        exact ⟨c, rfl, hp⟩
      · rintro ⟨d, hd, _⟩
        simp only [List.cons.injEq] at hd
        exact hd.2
    · simp only [hp, Bool.false_eq_true, if_false, not_matches_empty, false_iff]
      rintro ⟨d, hd, hpd⟩
      simp only [List.cons.injEq] at hd
      rw [← hd.1] at hpd
      exact hp hpd
  | seq a b iha ihb =>
    have key : Matches (seq a b) (c :: s) ↔
        (∃ u v, s = u ++ v ∧ Matches a (c :: u) ∧ Matches b v) ∨
        (Matches a [] ∧ Matches b (c :: s)) := by
      rw [matches_seq_iff]
      constructor
      · rintro ⟨u, v, huv, ha, hb⟩
        cases u with
        | nil =>
          simp only [List.nil_append] at huv
          rw [← huv] at hb
          exact Or.inr ⟨ha, hb⟩
        | cons d u2 =>
          simp only [List.cons_append, List.cons.injEq] at huv
          obtain ⟨rfl, rfl⟩ := huv
          exact Or.inl ⟨u2, v, rfl, ha, hb⟩
      · rintro (⟨u, v, rfl, ha, hb⟩ | ⟨ha, hb⟩)
        · exact ⟨c :: u, v, rfl, ha, hb⟩
        · exact ⟨[], c :: s, rfl, ha, hb⟩
    rw [key]
    by_cases hn : nullable a = true
    · simp only [deriv, hn, if_true, matches_alt_iff, matches_seq_iff, iha, ihb,
        (nullable_iff a).symm, true_and]
    · simp only [deriv, hn, Bool.false_eq_true, if_false, matches_seq_iff, iha,
        (nullable_iff a).symm, false_and, or_false]
  | alt a b iha ihb => simp only [deriv, matches_alt_iff, iha, ihb]
  | star a iha =>
    simp only [deriv, matches_seq_iff, iha]
    constructor
    · rintro ⟨u, v, rfl, ha, hs⟩
      exact Matches.starCons ha hs
    · intro h
      exact matches_star_cons h

theorem fullMatch_iff (r : RegExp) (s : List Nat) :
    fullMatch r s = true ↔ Matches r s := by
  induction s generalizing r with
  | nil => exact nullable_iff r
  | cons c s ih =>
    simp only [fullMatch]
    rw [ih, deriv_iff]

/-- The function `test` holds exactly when some substring is in the language. -/
theorem test_iff (r : RegExp) (s : JSString) :
    test r s = true ↔ ∃ pre x post, s = pre ++ x ++ post ∧ Matches r x := by
  simp only [test, List.any_eq_true, List.mem_tails, List.mem_inits, fullMatch_iff]
  constructor
  · rintro ⟨t, ⟨pre, rfl⟩, x, ⟨post, rfl⟩, hx⟩
    exact ⟨pre, x, post, (List.append_assoc pre x post).symm, hx⟩
  · rintro ⟨pre, x, post, rfl, hx⟩
    exact ⟨x ++ post, ⟨pre, (List.append_assoc pre x post).symm⟩, x, ⟨post, rfl⟩, hx⟩

theorem matches_star_cls_iff {p : Nat → Bool} {s : List Nat} :
    Matches (star (cls p)) s ↔ ∀ c ∈ s, p c = true := by
  induction s with
  | nil => simp [Matches.starNil]
  | cons d s ih =>
    constructor
    · intro h
      obtain ⟨u, v, rfl, ha, hs⟩ := matches_star_cons h
      obtain ⟨e, he, hpe⟩ := matches_cls_iff.mp ha
      simp only [List.cons.injEq] at he
      obtain ⟨rfl, rfl⟩ := he
      simp only [List.nil_append] at ih
      intro c hc
      simp only [List.nil_append, List.mem_cons] at hc
      rcases hc with rfl | hc
      · exact hpe
      · exact ih.mp hs c hc
    · intro h
      have h1 : Matches (cls p) [d] := Matches.cls (h d (List.mem_cons_self d s))
      have h2 : Matches (star (cls p)) s :=
        ih.mpr (fun c hc => h c (List.mem_cons_of_mem d hc))
      exact Matches.starCons h1 h2

theorem matches_plus_cls_iff {p : Nat → Bool} {s : List Nat} :
    Matches (plus (cls p)) s ↔ s ≠ [] ∧ ∀ c ∈ s, p c = true := by
  unfold plus
  rw [matches_seq_iff]
  constructor
  · rintro ⟨u, v, rfl, hu, hv⟩
    obtain ⟨e, rfl, hpe⟩ := matches_cls_iff.mp hu
    refine ⟨by simp, ?_⟩
    intro c hc
    simp only [List.singleton_append, List.mem_cons] at hc
    rcases hc with rfl | hc
    · exact hpe
    · exact matches_star_cls_iff.mp hv c hc
  · rintro ⟨hne, h⟩
    cases s with
    | nil => exact absurd rfl hne
    | cons d s =>
      exact ⟨[d], s, rfl, Matches.cls (h d (List.mem_cons_self d s)),
        matches_star_cls_iff.mpr (fun c hc => h c (List.mem_cons_of_mem d hc))⟩

end RegExp

/-! ## Lemmas on validateForm -/

theorem isBlank_iff_trim (s : JSString) : isBlank s = true ↔ truthyStr (trim s) = false := by
  rw [truthyStr_eq_false, trim_eq_nil_iff]
  simp [isBlank, List.all_eq_true]

theorem validateForm_eq (d : FormData) :
    validateForm d = (allBlocks d, (allBlocks d).keys.length == 0) := rfl

theorem usernameBlock_eq (d : FormData) (errors : ValidationErrors) :
    usernameBlock d errors =
      { username := if !truthyStr (trim d.username) then some (lit "El usuario es obligatorio")
          else if d.username.length < 3 then
            some (lit "El usuario debe tener al menos 3 caracteres")
          else errors.username,
        email := errors.email,
        password := errors.password,
        password2 := errors.password2,
        first_name := errors.first_name,
        last_name := errors.last_name } := by
  unfold usernameBlock
  split_ifs <;> rfl

theorem emailBlock_eq (d : FormData) (errors : ValidationErrors) :
    emailBlock d errors =
      { username := errors.username,
        email := if !truthyStr (trim d.email) then some (lit "El email es obligatorio")
          else if !RegExp.test emailPattern d.email then
            some (lit "El formato del email no es válido")
          else errors.email,
        password := errors.password,
        password2 := errors.password2,
        first_name := errors.first_name,
        last_name := errors.last_name } := by
  unfold emailBlock
  split_ifs <;> rfl

theorem firstNameBlock_eq (d : FormData) (errors : ValidationErrors) :
    firstNameBlock d errors =
      { username := errors.username,
        email := errors.email,
        password := errors.password,
        password2 := errors.password2,
        first_name := if !truthyStr (trim d.first_name) then some (lit "El nombre es obligatorio")
          else errors.first_name,
        last_name := errors.last_name } := by
  unfold firstNameBlock
  split_ifs <;> rfl

theorem lastNameBlock_eq (d : FormData) (errors : ValidationErrors) :
    lastNameBlock d errors =
      { username := errors.username,
        email := errors.email,
        password := errors.password,
        password2 := errors.password2,
        first_name := errors.first_name,
        last_name := if !truthyStr (trim d.last_name) then some (lit "El apellido es obligatorio")
          else errors.last_name } := by
  unfold lastNameBlock
  split_ifs <;> rfl

theorem passwordBlock_eq (d : FormData) (errors : ValidationErrors) :
    passwordBlock d errors =
      { username := errors.username,
        email := errors.email,
        password := if !truthyStr d.password then some (lit "La contraseña es obligatoria")
          else if d.password.length < 6 then
            some (lit "La contraseña debe tener al menos 6 caracteres")
          else errors.password,
        password2 := errors.password2,
        first_name := errors.first_name,
        last_name := errors.last_name } := by
  unfold passwordBlock
  split_ifs <;> rfl

theorem password2Block_eq (d : FormData) (errors : ValidationErrors) :
    password2Block d errors =
      { username := errors.username,
        email := errors.email,
        password := errors.password,
        password2 := if !truthyStr d.password2 then some (lit "Confirma tu contraseña")
          else if d.password != d.password2 then some (lit "Las contraseñas no coinciden")
          else errors.password2,
        first_name := errors.first_name,
        last_name := errors.last_name } := by
  unfold password2Block
  split_ifs <;> rfl

/-- The `errors` object of `validateForm`, field by field. -/
theorem validateForm_errors (d : FormData) :
    (validateForm d).1 =
      { username :=
          if !truthyStr (trim d.username) then some (lit "El usuario es obligatorio")
          else if d.username.length < 3 then
            some (lit "El usuario debe tener al menos 3 caracteres")
          else none,
        email :=
          if !truthyStr (trim d.email) then some (lit "El email es obligatorio")
          else if !RegExp.test emailPattern d.email then
            some (lit "El formato del email no es válido")
          else none,
        first_name :=
          if !truthyStr (trim d.first_name) then some (lit "El nombre es obligatorio")
          else none,
        last_name :=
          if !truthyStr (trim d.last_name) then some (lit "El apellido es obligatorio")
          else none,
        password :=
          if !truthyStr d.password then some (lit "La contraseña es obligatoria")
          else if d.password.length < 6 then
            some (lit "La contraseña debe tener al menos 6 caracteres")
          else none,
        password2 :=
          if !truthyStr d.password2 then some (lit "Confirma tu contraseña")
          else if d.password != d.password2 then some (lit "Las contraseñas no coinciden")
          else none } := by
  rw [validateForm_eq]
  simp only [allBlocks, usernameBlock_eq, emailBlock_eq, firstNameBlock_eq, lastNameBlock_eq,
    passwordBlock_eq, password2Block_eq]

theorem isBlank_false_iff_trim (s : JSString) :
    isBlank s = false ↔ truthyStr (trim s) = true := by
  rw [← Bool.not_eq_true, isBlank_iff_trim, Bool.not_eq_false]

theorem hasError_username (d : FormData) :
    hasError (validateForm d).1 .username = true ↔
      isBlank d.username = true ∨ d.username.length < 3 := by
  rw [isBlank_iff_trim]
  simp only [hasError, ValidationErrors.get, validateForm_errors]
  cases truthyStr (trim d.username) <;> by_cases h : d.username.length < 3 <;>
    simp [h] <;> decide

theorem hasError_email (d : FormData) :
    hasError (validateForm d).1 .email = true ↔
      isBlank d.email = true ∨ RegExp.test emailPattern d.email = false := by
  rw [isBlank_iff_trim]
  simp only [hasError, ValidationErrors.get, validateForm_errors]
  cases truthyStr (trim d.email) <;> cases RegExp.test emailPattern d.email <;> simp
  all_goals decide

theorem hasError_first_name (d : FormData) :
    hasError (validateForm d).1 .first_name = true ↔ isBlank d.first_name = true := by
  rw [isBlank_iff_trim]
  simp only [hasError, ValidationErrors.get, validateForm_errors]
  cases truthyStr (trim d.first_name)
  · simp
    decide
  · simp

theorem hasError_last_name (d : FormData) :
    hasError (validateForm d).1 .last_name = true ↔ isBlank d.last_name = true := by
  rw [isBlank_iff_trim]
  simp only [hasError, ValidationErrors.get, validateForm_errors]
  cases truthyStr (trim d.last_name)
  · simp
    decide
  · simp

theorem hasError_password (d : FormData) :
    hasError (validateForm d).1 .password = true ↔
      d.password = [] ∨ d.password.length < 6 := by
  rw [← truthyStr_eq_false]
  simp only [hasError, ValidationErrors.get, validateForm_errors]
  cases truthyStr d.password <;> by_cases h : d.password.length < 6 <;>
    simp [h] <;> decide

theorem hasError_password2 (d : FormData) :
    hasError (validateForm d).1 .password2 = true ↔
      d.password2 = [] ∨ d.password2 ≠ d.password := by
  rw [← truthyStr_eq_false]
  simp only [hasError, ValidationErrors.get, validateForm_errors]
  by_cases h : d.password2 = d.password
  · have hne : (d.password != d.password2) = false := by
      rw [h]
      exact bne_self_eq_false _
    rw [hne]
    cases truthyStr d.password2
    · simp [h]
      decide
    · simp [h]
  · have hne : (d.password != d.password2) = true := bne_iff_ne.mpr (Ne.symm h)
    rw [hne]
    cases truthyStr d.password2 <;> simp [h]
    all_goals decide

/-- Every key `validateForm` sets carries a non-empty message. -/
theorem hasError_iff_isSome (d : FormData) (name : Field) :
    hasError (validateForm d).1 name = ((validateForm d).1.get name).isSome := by
  cases name <;> simp only [hasError, ValidationErrors.get, validateForm_errors] <;>
    split_ifs <;> rfl

/-- The function `validateForm` returns `true` exactly when no field has an error. -/
theorem validateForm_valid_iff (d : FormData) :
    (validateForm d).2 = true ↔ ∀ name, hasError (validateForm d).1 name = false := by
  have hk : (validateForm d).2 = ((validateForm d).1.keys.length == 0) := by
    rw [validateForm_eq]
  rw [hk]
  simp only [hasError_iff_isSome, ValidationErrors.keys, beq_iff_eq, List.length_eq_zero,
    List.filter_eq_nil_iff, Bool.not_eq_true]
  constructor
  · intro h name
    apply h
    cases name <;> simp [Field.all]
  · intro h name _
    exact h name

/-! ## Lemmas on handleRegister -/

theorem handleRegister_invalid (host : Host) (st : State) (outcome : FetchOutcome)
    (h : (validateForm st.formData).2 = false) :
    handleRegister host st outcome =
      ({ st with validationErrors := (validateForm st.formData).1 },
        [Effect.preventDefault]) := by
  simp only [handleRegister, h]
  rfl

theorem handleRegister_ok (host : Host) (st : State) (outcome : FetchOutcome) (v : JSON)
    (h : (validateForm st.formData).2 = true) (hr : awaitResponse host outcome = .ok v) :
    handleRegister host st outcome =
      ({ formData := FormData.blank, validationErrors := (validateForm st.formData).1,
         showSuccess := true, loading := false, error := [] },
        [Effect.preventDefault, registerRequest st.formData, Effect.setTimeout 2000]) := by
  simp only [handleRegister, h, hr]
  rfl

theorem handleRegister_error (host : Host) (st : State) (outcome : FetchOutcome)
    (m : JSString)
    (h : (validateForm st.formData).2 = true) (hr : awaitResponse host outcome = .error m) :
    handleRegister host st outcome =
      ({ formData := st.formData, validationErrors := (validateForm st.formData).1,
         showSuccess := st.showSuccess, loading := false, error := orStr m genericError },
        [Effect.preventDefault, registerRequest st.formData]) := by
  simp only [handleRegister, h, hr]
  rfl

/-- The inner `try`/`catch` always ends in its `catch` clause. -/
theorem throwServerError_eq (host : Host) (errorText : JSString) :
    throwServerError host errorText = .error (orStr errorText genericError) := by
  unfold throwServerError
  cases hp : host.jsonParse errorText with
  | error e => rfl
  | ok errorData =>
    cases hg : getErrorProp host errorData with
    | error e =>
      simp only [bind, Except.bind, hg]
      rfl
    | ok errorField =>
      cases errorField with
      | none =>
        simp only [bind, Except.bind, hg]
        rfl
      | some v =>
        cases hv : v.truthy
        · simp only [bind, Except.bind, hg, hv]
          rfl
        · simp only [bind, Except.bind, hg, hv]
          rfl

theorem awaitResponse_rejected (host : Host) (m : JSString) :
    awaitResponse host (.rejected m) = .error m := rfl

theorem awaitResponse_not_ok (host : Host) (r : Response) (t : JSString)
    (hok : r.ok = false) (hbody : r.body = .text t) :
    awaitResponse host (.responded r) = .error (orStr t genericError) := by
  simp only [awaitResponse, Response.text, hbody, bind, Except.bind, pure, Except.pure, hok,
    throwServerError_eq]
  rfl

theorem awaitResponse_not_ok_failed (host : Host) (r : Response) (m : JSString)
    (hok : r.ok = false) (hbody : r.body = .failed m) :
    awaitResponse host (.responded r) = .error m := by
  simp only [awaitResponse, Response.text, hbody, bind, Except.bind, pure, Except.pure, hok]
  rfl

theorem awaitResponse_ok (host : Host) (r : Response) :
    r.ok = true → awaitResponse host (.responded r) = r.json host := by
  intro hok
  simp only [awaitResponse, bind, Except.bind, pure, Except.pure, hok]
  cases r.json host <;> rfl

/-- A non-2xx response makes the `try` block throw. -/
theorem awaitResponse_not_ok_throws (host : Host) (r : Response) (hok : r.ok = false) :
    ∃ m, awaitResponse host (.responded r) = .error m := by
  cases hb : r.body with
  | text t => exact ⟨_, awaitResponse_not_ok host r t hok hb⟩
  | failed m => exact ⟨_, awaitResponse_not_ok_failed host r m hok hb⟩

/-- With valid fields and a non-2xx response whose body text is `t`, the banner
is `t`, or the generic message when `t` is empty. -/
theorem handleRegister_not_ok (host : Host) (st : State) (resp : Response) (t : JSString)
    (hvalid : (validateForm st.formData).2 = true) (hok : resp.ok = false)
    (hbody : resp.body = .text t) :
    (handleRegister host st (.responded resp)).1.error = orStr t genericError := by
  rw [handleRegister_error host st _ _ hvalid (awaitResponse_not_ok host resp t hok hbody)]
  show orStr (orStr t genericError) genericError = orStr t genericError
  cases t <;> rfl

/-! ## The email pattern and the shape `text@text.text` -/

theorem matches_plus_notSpace_iff (u : List Nat) :
    RegExp.Matches (.plus .notSpace) u ↔ IsText u := by
  unfold RegExp.notSpace IsText
  rw [RegExp.matches_plus_cls_iff]
  simp only [Bool.not_eq_true']

theorem matches_char_iff (c : Nat) (u : List Nat) :
    RegExp.Matches (.char c) u ↔ u = [c] := by
  unfold RegExp.char
  rw [RegExp.matches_cls_iff]
  constructor
  · rintro ⟨d, rfl, hd⟩
    rw [beq_iff_eq] at hd
    rw [hd]
  · rintro rfl
    exact ⟨c, rfl, beq_self_eq_true c⟩

theorem matches_emailPattern_iff (x : List Nat) :
    RegExp.Matches emailPattern x ↔ HasEmailShape x := by
  unfold emailPattern HasEmailShape
  simp only [RegExp.matches_seq_iff, matches_plus_notSpace_iff, matches_char_iff]
  constructor
  · rintro ⟨u, r1, rfl, hu, a, r2, rfl, rfl, v, r3, rfl, hv, b, w, rfl, rfl, hw⟩
    exact ⟨u, v, w, hu, hv, hw, by simp⟩
  · rintro ⟨u, v, w, hu, hv, hw, rfl⟩
    exact ⟨u, [64] ++ (v ++ ([46] ++ w)), by simp, hu, [64], v ++ ([46] ++ w), rfl, rfl,
      v, [46] ++ w, rfl, hv, [46], w, rfl, rfl, hw⟩

theorem test_emailPattern_iff (s : JSString) :
    RegExp.test emailPattern s = true ↔ ContainsEmailShape s := by
  rw [RegExp.test_iff]
  unfold ContainsEmailShape
  simp only [matches_emailPattern_iff]

theorem not_isBlank_of_containsEmailShape {s : JSString} (h : ContainsEmailShape s) :
    isBlank s = false := by
  obtain ⟨pre, x, post, rfl, u, v, w, ⟨hne, hu⟩, _, _, rfl⟩ := h
  cases u with
  | nil => exact absurd rfl hne
  | cons c u =>
    have hc : isWhiteSpace c = false := hu c (List.mem_cons_self c u)
    rw [← Bool.not_eq_true]
    intro hb
    have hall := List.all_eq_true.mp hb c (by simp)
    rw [hc] at hall
    exact Bool.false_ne_true hall

theorem email_accepted_iff (d : FormData) :
    hasError (validateForm d).1 .email = false ↔ ContainsEmailShape d.email := by
  rw [← Bool.not_eq_true, hasError_email, ← test_emailPattern_iff]
  constructor
  · intro h
    by_contra hc
    exact h (Or.inr (Bool.not_eq_true _ ▸ hc))
  · intro h
    rintro (hb | ht)
    · have := not_isBlank_of_containsEmailShape ((test_emailPattern_iff _).mp h)
      rw [hb] at this
      exact Bool.noConfusion this
    · rw [h] at ht
      exact Bool.noConfusion ht

/-- Without whitespace in the value, containing the shape and having it as a
whole are the same. -/
theorem hasEmailShape_of_contains {s : JSString} (hs : ∀ c ∈ s, isWhiteSpace c = false)
    (h : ContainsEmailShape s) : HasEmailShape s := by
  obtain ⟨pre, x, post, rfl, u, v, w, ⟨hune, hu⟩, hv, ⟨hwne, hw⟩, rfl⟩ := h
  refine ⟨pre ++ u, v, w ++ post, ⟨?_, ?_⟩, hv, ⟨?_, ?_⟩, by simp⟩
  · simp [hune]
  · intro c hc
    exact hs c (by
      simp only [List.mem_append] at hc ⊢
      rcases hc with hc | hc
      · exact Or.inl (Or.inl hc)
      · exact Or.inl (Or.inr (Or.inl (Or.inl (Or.inl (Or.inl hc))))))
  · simp [hwne]
  · intro c hc
    exact hs c (by
      simp only [List.mem_append] at hc ⊢
      rcases hc with hc | hc
      · exact Or.inl (Or.inr (Or.inr hc))
      · exact Or.inr hc)

theorem containsEmailShape_of_has {s : JSString} (h : HasEmailShape s) :
    ContainsEmailShape s :=
  ⟨[], s, [], by simp, h⟩

theorem not_hasEmailShape_of_space {s : JSString} {c : Nat} (hc : c ∈ s)
    (hw : isWhiteSpace c = true) : ¬ HasEmailShape s := by
  rintro ⟨u, v, w, ⟨_, hu⟩, ⟨_, hv⟩, ⟨_, hw2⟩, rfl⟩
  simp only [List.mem_append, List.mem_singleton] at hc
  rcases hc with (((hc | hc) | hc) | hc) | hc
  · rw [hu c hc] at hw
    exact Bool.noConfusion hw
  · rw [hc] at hw
    exact absurd hw (by decide)
  · rw [hv c hc] at hw
    exact Bool.noConfusion hw
  · rw [hc] at hw
    exact absurd hw (by decide)
  · rw [hw2 c hc] at hw
    exact Bool.noConfusion hw

/-! ## Lemmas on handleChange -/

theorem handleChange_eq (st : State) (name : Field) (value : JSString) :
    handleChange st name value =
      { formData := st.formData.set name value,
        validationErrors :=
          if hasError st.validationErrors name then st.validationErrors.set name []
          else st.validationErrors,
        showSuccess := st.showSuccess, loading := st.loading, error := st.error } := by
  unfold handleChange
  by_cases h : hasError st.validationErrors name = true
  · simp [h]
  · simp [h]

theorem FormData.get_set (d : FormData) (name : Field) (value : JSString) :
    (d.set name value).get name = value := by
  cases name <;> rfl

theorem FormData.get_set_of_ne (d : FormData) (name : Field) (value : JSString)
    {other : Field} (h : other ≠ name) : (d.set name value).get other = d.get other := by
  cases name <;> cases other <;> first | rfl | exact absurd rfl h

/-! ## Field update -/

/-- C9: `handleChange` for field `name` and a new value stores the value in
`formData[name]` and leaves the other five fields as they were; if
`validationErrors[name]` was set it becomes the empty string (otherwise the
errors object is untouched); the validation errors of the other five fields,
`loading`, the banner `error` and `showSuccess` are unchanged. -/
theorem C9_handleChange_frame (st : State) (name : Field) (value : JSString) :
    (handleChange st name value).formData.get name = value ∧
    (∀ other, other ≠ name →
      (handleChange st name value).formData.get other = st.formData.get other) ∧
    (hasError st.validationErrors name = true →
      (handleChange st name value).validationErrors.get name = some []) ∧
    (hasError st.validationErrors name = false →
      (handleChange st name value).validationErrors = st.validationErrors) ∧
    hasError (handleChange st name value).validationErrors name = false ∧
    (∀ other, other ≠ name →
      (handleChange st name value).validationErrors.get other
        = st.validationErrors.get other) ∧
    (handleChange st name value).loading = st.loading ∧
    (handleChange st name value).error = st.error ∧
    (handleChange st name value).showSuccess = st.showSuccess := by
  rw [handleChange_eq]
  cases h : hasError st.validationErrors name
  · refine ⟨?_, ?_, ?_, ?_, ?_, ?_, rfl, rfl, rfl⟩
    · exact FormData.get_set _ _ _
    · intro other ho
      exact FormData.get_set_of_ne _ _ _ ho
    · intro hc
      exact Bool.noConfusion hc
    · intro _
      rfl
    · exact h
    · intro other _
      rfl
  · refine ⟨?_, ?_, ?_, ?_, ?_, ?_, rfl, rfl, rfl⟩
    · exact FormData.get_set _ _ _
    · intro other ho
      exact FormData.get_set_of_ne _ _ _ ho
    · intro _
      cases name <;> rfl
    · intro hc
      exact Bool.noConfusion hc
    · cases name <;> rfl
    · intro other ho
      cases name <;> cases other <;> first | rfl | exact absurd rfl ho

/-! ## Validation rules -/

/-- C6: `validateForm` records a username error exactly when the username is
empty, whitespace-only or shorter than 3 code units; with username "ab" there
is a username error and with "abc" there is none, whatever the other five
fields hold. -/
theorem C6_username_rule :
    (∀ d : FormData, hasError (validateForm d).1 .username = true ↔
      (d.username = [] ∨ isBlank d.username = true ∨ d.username.length < 3)) ∧
    (∀ e p q f l : JSString,
      hasError (validateForm
        { username := lit "ab", email := e, password := p,
          password2 := q, first_name := f, last_name := l }).1 .username = true) ∧
    (∀ e p q f l : JSString,
      hasError (validateForm
        { username := lit "abc", email := e, password := p,
          password2 := q, first_name := f, last_name := l }).1 .username = false) := by
  refine ⟨?_, ?_, ?_⟩
  · intro d
    rw [hasError_username]
    constructor
    · rintro (h | h)
      · exact Or.inr (Or.inl h)
      · exact Or.inr (Or.inr h)
    · rintro (h | h | h)
      · rw [h]
        exact Or.inl rfl
      · exact Or.inl h
      · exact Or.inr h
  · intro e p q f l
    rw [hasError_username]
    dsimp only
    exact Or.inr (by decide)
  · intro e p q f l
    rw [← Bool.not_eq_true, hasError_username]
    dsimp only
    decide

/-- C4: `validateForm` records a password error exactly when the password is
empty or shorter than 6 code units, and a password2 error exactly when
password2 is empty or differs from password. With password "12345" and
password2 "12345" it records the password length error and no password2
error; with "123456" and "1234567" it records the mismatch error on password2
and no password error. -/
theorem C4_password_rules :
    (∀ d : FormData,
      (hasError (validateForm d).1 .password = true ↔
        (d.password = [] ∨ d.password.length < 6)) ∧
      (hasError (validateForm d).1 .password2 = true ↔
        (d.password2 = [] ∨ d.password2 ≠ d.password))) ∧
    (∀ u e f l : JSString,
      (validateForm
        { username := u, email := e, password := lit "12345",
          password2 := lit "12345", first_name := f, last_name := l }).1.password
          = some (lit "La contraseña debe tener al menos 6 caracteres") ∧
      hasError (validateForm
        { username := u, email := e, password := lit "12345",
          password2 := lit "12345", first_name := f, last_name := l }).1 .password2 = false) ∧
    (∀ u e f l : JSString,
      (validateForm
        { username := u, email := e, password := lit "123456",
          password2 := lit "1234567", first_name := f, last_name := l }).1.password2
          = some (lit "Las contraseñas no coinciden") ∧
      hasError (validateForm
        { username := u, email := e, password := lit "123456",
          password2 := lit "1234567", first_name := f, last_name := l }).1 .password = false) := by
  refine ⟨fun d => ⟨hasError_password d, hasError_password2 d⟩, ?_, ?_⟩
  · intro u e f l
    refine ⟨?_, ?_⟩
    · rw [validateForm_errors]
      rfl
    · rw [← Bool.not_eq_true, hasError_password2]
      dsimp only
      decide
  · intro u e f l
    refine ⟨?_, ?_⟩
    · rw [validateForm_errors]
      rfl
    · rw [← Bool.not_eq_true, hasError_password]
      dsimp only
      decide

/-- C5, as stated, fails: the email value "a b@c.d" is accepted (no email
error) although, containing a space, it does not have the shape
`text@text.text` as a whole. -/
theorem C5_counterexample :
    hasError (validateForm { validSample with email := lit "a b@c.d" }).1 .email = false ∧
    ¬ HasEmailShape (lit "a b@c.d") :=
  ⟨by decide, not_hasEmailShape_of_space (c := 32) (by decide) (by decide)⟩

/-- C5, amended: `validateForm` records no email error exactly when the value
contains a substring of the shape `text@text.text` (each text a non-empty run
of non-whitespace code units), and records an email error in every other case;
for a value without whitespace that is the same as having the shape as a
whole. "not-an-email" gets an email error and "a@b.co" gets none. -/
theorem C5_email_rule :
    (∀ d : FormData,
      (hasError (validateForm d).1 .email = false ↔ ContainsEmailShape d.email) ∧
      (hasError (validateForm d).1 .email = true ↔ ¬ ContainsEmailShape d.email)) ∧
    (∀ d : FormData, (∀ c ∈ d.email, isWhiteSpace c = false) →
      (hasError (validateForm d).1 .email = false ↔ HasEmailShape d.email)) ∧
    (∀ u p q f l : JSString,
      hasError (validateForm
        { username := u, email := lit "not-an-email", password := p,
          password2 := q, first_name := f, last_name := l }).1 .email = true) ∧
    (∀ u p q f l : JSString,
      hasError (validateForm
        { username := u, email := lit "a@b.co", password := p,
          password2 := q, first_name := f, last_name := l }).1 .email = false) := by
  refine ⟨?_, ?_, ?_, ?_⟩
  · intro d
    refine ⟨email_accepted_iff d, ?_⟩
    rw [← email_accepted_iff, Bool.not_eq_false]
  · intro d hd
    rw [email_accepted_iff]
    exact ⟨hasEmailShape_of_contains hd, containsEmailShape_of_has⟩
  · intro u p q f l
    rw [hasError_email]
    dsimp only
    exact Or.inr (by decide)
  · intro u p q f l
    rw [← Bool.not_eq_true, hasError_email]
    dsimp only
    decide

/-- C2, as stated, fails for the two password fields: with password and
password2 both six spaces (whitespace-only) and the other fields valid,
`validateForm` records no error for either and returns true. -/
theorem C2_counterexample :
    isBlank (lit "      ") = true ∧
    hasError (validateForm
      { validSample with password := lit "      ", password2 := lit "      " }).1
      .password = false ∧
    hasError (validateForm
      { validSample with password := lit "      ", password2 := lit "      " }).1
      .password2 = false ∧
    (validateForm
      { validSample with password := lit "      ", password2 := lit "      " }).2 = true := by
  decide

/-- C2, amended: if username, email, first_name or last_name is empty or
whitespace-only, or password is empty (or whitespace-only and shorter than 6),
or password2 is empty (or whitespace-only and different from password), then
`validateForm` records a non-empty error message for that field and returns
false, and a submit with these fields makes no network call. -/
theorem C2_required_fields (d : FormData) (name : Field)
    (h : requiredMissing d name = true) :
    hasError (validateForm d).1 name = true ∧
    (validateForm d).2 = false ∧
    ∀ (host : Host) (st : State) (outcome : FetchOutcome), st.formData = d →
      (handleRegister host st outcome).2.any Effect.isFetch = false := by
  have h1 : hasError (validateForm d).1 name = true := by
    cases name
    · exact (hasError_username d).mpr (Or.inl h)
    · exact (hasError_email d).mpr (Or.inl h)
    · rw [hasError_password]
      simp only [requiredMissing, Bool.or_eq_true, Bool.and_eq_true, List.isEmpty_iff,
        decide_eq_true_eq] at h
      rcases h with h | ⟨_, h⟩
      · exact Or.inl h
      · exact Or.inr h
    · rw [hasError_password2]
      simp only [requiredMissing, Bool.or_eq_true, Bool.and_eq_true, List.isEmpty_iff,
        bne_iff_ne] at h
      rcases h with h | ⟨_, h⟩
      · exact Or.inl h
      · exact Or.inr (Ne.symm h)
    · exact (hasError_first_name d).mpr h
    · exact (hasError_last_name d).mpr h
  have h2 : (validateForm d).2 = false := by
    rw [← Bool.not_eq_true, validateForm_valid_iff]
    intro hall
    rw [hall name] at h1
    exact Bool.noConfusion h1
  refine ⟨h1, h2, ?_⟩
  intro host st outcome hst
  subst hst
  rw [handleRegister_invalid host st outcome h2]
  rfl

/-- C2 witness: a whitespace-only first name. -/
theorem C2_required_fields_witness :
    requiredMissing { validSample with first_name := lit "  " } .first_name = true ∧
    hasError (validateForm { validSample with first_name := lit "  " }).1 .first_name
      = true ∧
    (validateForm { validSample with first_name := lit "  " }).2 = false :=
  ⟨by decide,
    (C2_required_fields { validSample with first_name := lit "  " } .first_name
      (by decide)).1,
    (C2_required_fields { validSample with first_name := lit "  " } .first_name
      (by decide)).2.1⟩

/-! ## Submit -/

/-- C1: a submit sends the registration request exactly when `validateForm`
reports no error for any of the six fields; when some field has an error the
submit makes no network call and leaves `formData`, `loading`, the banner
`error` and `showSuccess` as they were, replacing only `validationErrors`. -/
theorem C1_submit_gated_by_validation (host : Host) (st : State) (outcome : FetchOutcome) :
    ((handleRegister host st outcome).2.any Effect.isFetch = true ↔
      ∀ name, hasError (validateForm st.formData).1 name = false) ∧
    ((∃ name, hasError (validateForm st.formData).1 name = true) →
      (handleRegister host st outcome).2.any Effect.isFetch = false ∧
      (handleRegister host st outcome).1.formData = st.formData ∧
      (handleRegister host st outcome).1.loading = st.loading ∧
      (handleRegister host st outcome).1.error = st.error ∧
      (handleRegister host st outcome).1.showSuccess = st.showSuccess ∧
      (handleRegister host st outcome).1.validationErrors = (validateForm st.formData).1) := by
  cases hv : (validateForm st.formData).2
  · have hbad : ¬ ∀ name, hasError (validateForm st.formData).1 name = false := by
      rw [← validateForm_valid_iff, hv]
      exact Bool.false_ne_true
    rw [handleRegister_invalid host st outcome hv]
    refine ⟨⟨?_, fun h => absurd h hbad⟩, fun _ => ⟨rfl, rfl, rfl, rfl, rfl, rfl⟩⟩
    intro h
    exact Bool.noConfusion h
  · have hgood := (validateForm_valid_iff st.formData).mp hv
    refine ⟨⟨fun _ => hgood, fun _ => ?_⟩, ?_⟩
    · cases hr : awaitResponse host outcome with
      | error m =>
        rw [handleRegister_error host st outcome m hv hr]
        rfl
      | ok v =>
        rw [handleRegister_ok host st outcome v hv hr]
        rfl
    · rintro ⟨name, hname⟩
      rw [hgood name] at hname
      exact Bool.noConfusion hname

/-- C7: with valid fields and a 2xx response whose body parses as JSON, the
submit ends with all six fields the empty string, `showSuccess` set, the
banner `error` empty and `loading` false, having sent one request and started
one 2000 ms timer; the timer callback clears `showSuccess`, changes nothing
else, and calls `onSwitchToLogin` exactly once with no arguments. -/
theorem C7_success (host : Host) (st : State) (resp : Response) (t : JSString) (v : JSON)
    (hvalid : (validateForm st.formData).2 = true)
    (hstatus : 200 ≤ resp.status ∧ resp.status ≤ 299)
    (hbody : resp.body = .text t) (hparse : host.jsonParse t = .ok v) :
    (∀ name, (handleRegister host st (.responded resp)).1.formData.get name = []) ∧
    (handleRegister host st (.responded resp)).1.showSuccess = true ∧
    (handleRegister host st (.responded resp)).1.error = [] ∧
    (handleRegister host st (.responded resp)).1.loading = false ∧
    (handleRegister host st (.responded resp)).2 =
      [Effect.preventDefault, registerRequest st.formData, Effect.setTimeout 2000] ∧
    (successTimer (handleRegister host st (.responded resp)).1).1 =
      { (handleRegister host st (.responded resp)).1 with showSuccess := false } ∧
    (successTimer (handleRegister host st (.responded resp)).1).2 =
      [Effect.onSwitchToLogin []] := by
  have hok : resp.ok = true := by
    simp only [Response.ok, Bool.and_eq_true, decide_eq_true_eq]
    exact hstatus
  have hr : awaitResponse host (.responded resp) = .ok v := by
    rw [awaitResponse_ok host resp hok]
    simp only [Response.json, hbody, hparse]
  rw [handleRegister_ok host st _ v hvalid hr]
  refine ⟨?_, rfl, rfl, rfl, rfl, rfl, rfl⟩
  intro name
  cases name <;> rfl

/-- C7 witness: a 201 response with body `{}`. -/
theorem C7_success_witness :
    (validateForm validSample).2 = true ∧
    (handleRegister acceptingHost { State.initial with formData := validSample }
      (.responded ⟨201, .text (lit "\x7b\x7d")⟩)).1.showSuccess = true :=
  ⟨by decide,
    (C7_success acceptingHost { State.initial with formData := validSample }
      ⟨201, .text (lit "\x7b\x7d")⟩ (lit "\x7b\x7d") (.obj [])
      (by decide) (by decide) rfl rfl).2.1⟩

/-- C3 (the code departs from the claim): with valid fields and a 400 response
whose body is `{"error":"Username taken"}`, the banner ends up as the raw body
text, whatever `JSON.parse` returns for it, and not as "Username taken": the
error thrown inside the inner `try` is caught by its own `catch`. -/
theorem C3_banner_is_raw_body (host : Host) :
    (handleRegister host { State.initial with formData := validSample }
      (.responded ⟨400, .text usernameTakenBody⟩)).1.error = usernameTakenBody ∧
    usernameTakenBody ≠ lit "Username taken" :=
  ⟨handleRegister_not_ok host _ ⟨400, .text usernameTakenBody⟩ usernameTakenBody
    (by decide) (by decide) rfl, by decide⟩

/-- C10, as stated, fails for the empty body: with valid fields and a 500
response whose body is the empty text (which is not JSON), the banner is the
generic message 'Error en el registro', not the (empty) raw text, whatever
the host's `JSON.parse` does. -/
theorem C10_counterexample :
    (validateForm validSample).2 = true ∧
    Response.ok ⟨500, .text []⟩ = false ∧
    (∀ host : Host,
      (handleRegister host { State.initial with formData := validSample }
        (.responded ⟨500, .text []⟩)).1.error = genericError) ∧
    genericError ≠ [] :=
  ⟨by decide, by decide,
    fun host => handleRegister_not_ok host _ ⟨500, .text []⟩ [] (by decide) (by decide) rfl,
    by decide⟩

/-- C10, amended: with valid fields and a non-2xx response whose body text
does not parse as JSON, the banner ends up as the raw response text when that
text is non-empty, and as the generic message 'Error en el registro' when it
is empty. -/
theorem C10_unparseable_error_body (host : Host) (st : State) (resp : Response)
    (t m : JSString)
    (hvalid : (validateForm st.formData).2 = true)
    (hstatus : ¬ (200 ≤ resp.status ∧ resp.status ≤ 299))
    (hbody : resp.body = .text t)
    (hparse : host.jsonParse t = .error m) :
    (t ≠ [] → (handleRegister host st (.responded resp)).1.error = t) ∧
    (t = [] → (handleRegister host st (.responded resp)).1.error = genericError) := by
  have hok : resp.ok = false := by
    rw [← Bool.not_eq_true]
    simp only [Response.ok, Bool.and_eq_true, decide_eq_true_eq]
    exact hstatus
  have _ := hparse
  rw [handleRegister_not_ok host st resp t hvalid hok hbody]
  constructor
  · intro ht
    cases t with
    | nil => exact absurd rfl ht
    | cons c t => rfl
  · intro ht
    rw [ht]
    rfl

/-- C10 witness: a 502 response with an HTML body. -/
theorem C10_unparseable_error_body_witness :
    (validateForm validSample).2 = true ∧
    ¬ (200 ≤ 502 ∧ 502 ≤ 299) ∧
    (handleRegister rejectingHost { State.initial with formData := validSample }
      (.responded ⟨502, .text (lit "<h1>Bad Gateway</h1>")⟩)).1.error
        = lit "<h1>Bad Gateway</h1>" :=
  ⟨by decide, by decide,
    (C10_unparseable_error_body rejectingHost { State.initial with formData := validSample }
      ⟨502, .text (lit "<h1>Bad Gateway</h1>")⟩ (lit "<h1>Bad Gateway</h1>")
      (lit "Unexpected end of JSON input") (by decide) (by decide) rfl rfl).1 (by decide)⟩

/-- C8: with the form displayed, valid fields and a failed request (a non-2xx
response, or an exception thrown in the `try` block), the submit ends with
`formData` as before the submit, `showSuccess` unset, `loading` false and a
non-empty banner `error`; the banner is the thrown exception's message, or the
generic message 'Error en el registro' when that message is empty. A rejected
`fetch` and a failed body read throw their own error; a non-2xx response
always throws. -/
theorem C8_failure_frame (host : Host) (st : State) (outcome : FetchOutcome)
    (hform : formRendered st = true)
    (hvalid : (validateForm st.formData).2 = true)
    (hfail : (∃ r, outcome = .responded r ∧ ¬ (200 ≤ r.status ∧ r.status ≤ 299)) ∨
      (∃ m, awaitResponse host outcome = .error m)) :
    (handleRegister host st outcome).1.formData = st.formData ∧
    (handleRegister host st outcome).1.showSuccess = false ∧
    (handleRegister host st outcome).1.loading = false ∧
    (handleRegister host st outcome).1.error ≠ [] ∧
    (∃ m, awaitResponse host outcome = .error m ∧
      (m ≠ [] → (handleRegister host st outcome).1.error = m) ∧
      (m = [] → (handleRegister host st outcome).1.error = genericError)) ∧
    (∀ m, outcome = .rejected m →
      (handleRegister host st outcome).1.error = orStr m genericError) ∧
    (∀ r m, outcome = .responded r → r.body = .failed m →
      (handleRegister host st outcome).1.error = orStr m genericError) := by
  have hthrown : ∃ m, awaitResponse host outcome = .error m := by
    rcases hfail with ⟨r, rfl, hr⟩ | h
    · apply awaitResponse_not_ok_throws
      rw [← Bool.not_eq_true]
      simp only [Response.ok, Bool.and_eq_true, decide_eq_true_eq]
      exact hr
    · exact h
  obtain ⟨m, hm⟩ := hthrown
  have hshow : st.showSuccess = false := by
    simpa [formRendered] using hform
  rw [handleRegister_error host st outcome m hvalid hm]
  refine ⟨rfl, hshow, rfl, orStr_ne_nil m genericError_ne_nil, ⟨m, hm, ?_, ?_⟩, ?_, ?_⟩
  · intro hne
    cases m with
    | nil => exact absurd rfl hne
    | cons c m => rfl
  · intro he
    rw [he]
    rfl
  · rintro m2 rfl
    rw [awaitResponse_rejected] at hm
    cases hm
    rfl
  · rintro r m2 rfl hb
    have hm2 : awaitResponse host (.responded r) = .error m2 := by
      cases hok : r.ok
      · exact awaitResponse_not_ok_failed host r m2 hok hb
      · rw [awaitResponse_ok host r hok]
        simp only [Response.json, hb]
    rw [hm2] at hm
    cases hm
    rfl

/-- C8 witness: `fetch` rejects with "Failed to fetch". -/
theorem C8_failure_frame_witness :
    formRendered { State.initial with formData := validSample } = true ∧
    (validateForm validSample).2 = true ∧
    (handleRegister rejectingHost { State.initial with formData := validSample }
      (.rejected (lit "Failed to fetch"))).1.formData = validSample ∧
    (handleRegister rejectingHost { State.initial with formData := validSample }
      (.rejected (lit "Failed to fetch"))).1.error = lit "Failed to fetch" :=
  ⟨by decide, by decide,
    (C8_failure_frame rejectingHost { State.initial with formData := validSample }
      (.rejected (lit "Failed to fetch")) (by decide) (by decide) (Or.inr ⟨_, rfl⟩)).1,
    (C8_failure_frame rejectingHost { State.initial with formData := validSample }
      (.rejected (lit "Failed to fetch")) (by decide) (by decide)
      (Or.inr ⟨_, rfl⟩)).2.2.2.2.2.1 (lit "Failed to fetch") rfl⟩

end RegisterScreen
